import Mathlib

/-!
Verification development for the MentalMath quiz application (src/app.py).

The file shallowly embeds the pieces of `app.py` that the specification's
claims are about:

* the model-output extraction pipeline of the "Generate Questions" block
  (lines 163-195): the fenced-code-block regex search, the first-bracket /
  last-bracket fallback, the trailing-comma repair `re.sub`, `json.loads`,
  and the `isinstance(list) and len == 20` acceptance check;
* the page-session state (`st.session_state`) with the keys the script
  uses (`qna`, `start_time`, `submitted`, `user_answers`, `end_time`,
  `shuffled_options`) and the transitions the script performs on it;
* the answer-collection, timing, grading, totalling and tier logic of the
  display and results blocks (lines 198-271).

Strings are modelled as `List Char`.  Timestamps (`time.time()` floats)
are modelled in whole seconds as `Int`; Python's `int()` truncation is the
identity on whole seconds, which is all the claims need.  External side
effects (the Gemini call, `save_to_json`, `st.rerun`, widget rendering)
are outside the embedded state, exactly as the spec scopes them out.
-/

/-- Strings of the Python program, modelled as lists of characters. -/
abbrev Str := List Char

/-- Python's regex `\s` class on ASCII input: space, tab, newline,
carriage return, vertical tab, form feed. -/
def isReSpace (c : Char) : Bool :=
  c == ' ' || c == '\t' || c == '\n' || c == '\r' || c == '\x0b' || c == '\x0c'

/-- JSON whitespace as skipped by Python's `json` scanner: space, tab,
newline, carriage return only. -/
def isJsonWs (c : Char) : Bool :=
  c == ' ' || c == '\t' || c == '\n' || c == '\r'

/-- Skip JSON whitespace. -/
def jsonWs (l : Str) : Str := l.dropWhile isJsonWs

/-- The backquote character, as used by the fenced-code-block regex. -/
def backquote : Char := Char.ofNat 96

/-- Opening curly brace. -/
def lbrace : Char := Char.ofNat 123

/-- Closing curly brace. -/
def rbrace : Char := Char.ofNat 125

/-- Characters stripped by Python's `str.strip()` on ASCII input. -/
def isPyStripSpace (c : Char) : Bool :=
  c == ' ' || c == '\t' || c == '\n' || c == '\r' || c == '\x0b' || c == '\x0c'

/-- Python's `str.strip()`: remove leading and trailing whitespace. -/
def pyStrip (l : Str) : Str :=
  ((l.dropWhile isPyStripSpace).reverse.dropWhile isPyStripSpace).reverse

/-- The values produced by `json.loads`.  Numbers keep their source
literal (the claims never compare numerically distinct spellings). -/
inductive JsonValue where
  | null : JsonValue
  | bool : Bool → JsonValue
  | num : Str → JsonValue
  | str : Str → JsonValue
  | arr : List JsonValue → JsonValue
  | obj : List (Str × JsonValue) → JsonValue

/-- Value of one hexadecimal digit, as in `\uXXXX` escapes. -/
def hexVal (c : Char) : Option Nat :=
  if c.isDigit then some (c.toNat - 48)
  else if 'a' ≤ c && c ≤ 'f' then some (c.toNat - 87)
  else if 'A' ≤ c && c ≤ 'F' then some (c.toNat - 55)
  else none

/-- The single-character JSON string escapes accepted by `json.loads`. -/
def escChar (e : Char) : Option Char :=
  if e == '"' then some '"'
  else if e == '\\' then some '\\'
  else if e == '/' then some '/'
  else if e == 'b' then some (Char.ofNat 8)
  else if e == 'f' then some (Char.ofNat 12)
  else if e == 'n' then some '\n'
  else if e == 'r' then some '\r'
  else if e == 't' then some '\t'
  else none

/-- Body of a JSON string after the opening quote, as scanned by
`json.loads` in strict mode: raw control characters are rejected,
escapes are decoded, the closing quote ends the string.  (Surrogate-pair
combination of `\u` escapes is not modelled; no claim touches it.) -/
def parseStringBody : Nat → Str → Option (Str × Str)
  | 0, _ => none
  | Nat.succ fuel, l =>
    match l with
    | [] => none
    | c :: rest =>
      if c == '"' then some ([], rest)
      else if c == '\\' then
        match rest with
        | [] => none
        | e :: r2 =>
          if e == 'u' then
            match r2 with
            | h1 :: h2 :: h3 :: h4 :: r3 =>
              match hexVal h1, hexVal h2, hexVal h3, hexVal h4 with
              | some a, some b, some c2, some d =>
                (parseStringBody fuel r3).map
                  (fun p => (Char.ofNat (4096 * a + 256 * b + 16 * c2 + d) :: p.1, p.2))
              | _, _, _, _ => none
            | _ => none
          else
            match escChar e with
            | some ec => (parseStringBody fuel r2).map (fun p => (ec :: p.1, p.2))
            | none => none
      else if c.toNat < 32 then none
      else (parseStringBody fuel rest).map (fun p => (c :: p.1, p.2))

/-- Optional fraction and exponent parts of a JSON number literal,
mirroring the `NUMBER_RE` regex of Python's `json` module (each part is
taken only when complete). -/
def parseFracExp (l : Str) : Str × Str :=
  let fr :=
    match l with
    | '.' :: r =>
      let ds := r.takeWhile Char.isDigit
      if ds.isEmpty then (([] : Str), l) else ('.' :: ds, r.dropWhile Char.isDigit)
    | _ => (([] : Str), l)
  let r1 := fr.2
  let ex :=
    match r1 with
    | e :: rest =>
      if e == 'e' || e == 'E' then
        let sr :=
          match rest with
          | '+' :: rr => ((['+'] : Str), rr)
          | '-' :: rr => ((['-'] : Str), rr)
          | _ => (([] : Str), rest)
        let ds := sr.2.takeWhile Char.isDigit
        if ds.isEmpty then (([] : Str), r1) else (e :: sr.1 ++ ds, sr.2.dropWhile Char.isDigit)
      else (([] : Str), r1)
    | [] => (([] : Str), r1)
  (fr.1 ++ ex.1, ex.2)

/-- A JSON number literal: `-? (0 | [1-9][0-9]*) frac? exp?`. -/
def parseNumber (l : Str) : Option (JsonValue × Str) :=
  let sr :=
    match l with
    | '-' :: r => ((['-'] : Str), r)
    | _ => (([] : Str), l)
  match sr.2 with
  | '0' :: r1 =>
    let fe := parseFracExp r1
    some (JsonValue.num (sr.1 ++ '0' :: fe.1), fe.2)
  | c :: r1 =>
    if c.isDigit then
      let ds := r1.takeWhile Char.isDigit
      let r2 := r1.dropWhile Char.isDigit
      let fe := parseFracExp r2
      some (JsonValue.num (sr.1 ++ c :: (ds ++ fe.1)), fe.2)
    else none
  | [] => none

mutual

/-- A JSON value, as parsed by `json.loads` at one position (leading
whitespace already skipped by the caller).  The fuel argument only bounds
recursion depth; `jsonFuel` below always supplies enough. -/
def parseValue : Nat → Str → Option (JsonValue × Str)
  | 0, _ => none
  | Nat.succ fuel, l =>
    match l with
    | [] => none
    | c :: rest =>
      if c == lbrace then parseMembersStart fuel (jsonWs rest)
      else if c == '[' then parseItemsStart fuel (jsonWs rest)
      else if c == '"' then
        (parseStringBody (rest.length + 1) rest).map (fun p => (JsonValue.str p.1, p.2))
      else
        match l with
        | 't' :: 'r' :: 'u' :: 'e' :: r2 => some (JsonValue.bool true, r2)
        | 'f' :: 'a' :: 'l' :: 's' :: 'e' :: r2 => some (JsonValue.bool false, r2)
        | 'n' :: 'u' :: 'l' :: 'l' :: r2 => some (JsonValue.null, r2)
        | 'N' :: 'a' :: 'N' :: r2 => some (JsonValue.num ('N' :: 'a' :: 'N' :: []), r2)
        | 'I' :: 'n' :: 'f' :: 'i' :: 'n' :: 'i' :: 't' :: 'y' :: r2 =>
          some (JsonValue.num ("Infinity".toList), r2)
        | '-' :: 'I' :: 'n' :: 'f' :: 'i' :: 'n' :: 'i' :: 't' :: 'y' :: r2 =>
          some (JsonValue.num ("-Infinity".toList), r2)
        | _ => parseNumber l

/-- Array body after `[` and whitespace: either an immediate `]` or a
comma-separated item list (so `[1,]` fails: after a comma a value is
required, matching `json.loads`). -/
def parseItemsStart : Nat → Str → Option (JsonValue × Str)
  | 0, _ => none
  | Nat.succ fuel, l =>
    match l with
    | ']' :: rest => some (JsonValue.arr [], rest)
    | _ => parseItems fuel l []

/-- Comma-separated array items, accumulating in reverse. -/
def parseItems : Nat → Str → List JsonValue → Option (JsonValue × Str)
  | 0, _, _ => none
  | Nat.succ fuel, l, acc =>
    match parseValue fuel l with
    | none => none
    | some (v, rest) =>
      match jsonWs rest with
      | ',' :: r2 => parseItems fuel (jsonWs r2) (v :: acc)
      | ']' :: r2 => some (JsonValue.arr (v :: acc).reverse, r2)
      | _ => none

/-- Object body after `{` and whitespace: either an immediate `}` or a
comma-separated member list. -/
def parseMembersStart : Nat → Str → Option (JsonValue × Str)
  | 0, _ => none
  | Nat.succ fuel, l =>
    match l with
    | [] => none
    | c :: rest =>
      if c == rbrace then some (JsonValue.obj [], rest)
      else parseMembers fuel l []

/-- Comma-separated object members; every key must be a string and a
value must follow each comma (so `{"a":1,}` fails, matching
`json.loads`). -/
def parseMembers : Nat → Str → List (Str × JsonValue) → Option (JsonValue × Str)
  | 0, _, _ => none
  | Nat.succ fuel, l, acc =>
    match l with
    | '"' :: rest =>
      match parseStringBody (rest.length + 1) rest with
      | none => none
      | some (key, r1) =>
        match jsonWs r1 with
        | ':' :: r2 =>
          match parseValue fuel (jsonWs r2) with
          | none => none
          | some (v, r3) =>
            match jsonWs r3 with
            | [] => none
            | c :: r4 =>
              if c == ',' then parseMembers fuel (jsonWs r4) ((key, v) :: acc)
              else if c == rbrace then some (JsonValue.obj ((key, v) :: acc).reverse, r4)
              else none
        | _ => none
    | _ => none

end

/-- Fuel that is always sufficient for `parseValue` on the given input. -/
def jsonFuel (l : Str) : Nat := 3 * l.length + 8

/-- Python's `json.loads`: skip leading whitespace, parse one value,
require only whitespace after it. -/
def json_loads (l : Str) : Option JsonValue :=
  match parseValue (jsonFuel l) (jsonWs l) with
  | some (v, rest) => if (jsonWs rest).isEmpty then some v else none
  | none => none

/-- Anchored match of the opening of the fence pattern
`(backquote)(backquote)(backquote)json` with `re.IGNORECASE` on `json`;
returns the remaining input. -/
def fenceOpen : Str → Option Str
  | a :: b :: c :: d :: e :: f :: g :: rest =>
    if a == backquote && b == backquote && c == backquote
        && d.toLower == 'j' && e.toLower == 's' && f.toLower == 'o' && g.toLower == 'n'
    then some rest else none
  | _ => none

/-- Attempt, at the current position, to match the closing part of the
capture group and the fence tail: a closing brace, `\s*`, `]`, `\s*`,
three backquotes.  Each `\s*` is followed by a non-space literal, so the
regex engine's greedy scan is deterministic here.  Returns the group
characters contributed (brace, the spaces, and `]`). -/
def tryCloseGroup : Str → Option Str
  | c :: rest =>
    if c == rbrace then
      let sp := rest.takeWhile isReSpace
      match rest.dropWhile isReSpace with
      | ']' :: rest2 =>
        (match rest2.dropWhile isReSpace with
          | x :: y :: z :: _ =>
            if x == backquote && y == backquote && z == backquote
            then some (c :: sp ++ [']']) else none
          | _ => none)
      | _ => none
    else none
  | [] => none

/-- The lazy `.*?` of the fence regex (with `re.DOTALL`): at each
position first try the rest of the pattern, else consume one character.
`acc` holds the consumed characters in reverse. -/
def lazyBody : Str → Str → Option Str
  | [], _ => none
  | c :: rest, acc =>
    match tryCloseGroup (c :: rest) with
    | some closing => some (acc.reverse ++ closing)
    | none => lazyBody rest (c :: acc)

/-- Anchored match of the whole regex
`(backquote){3}json\s*(\[\s*{.*?}\s*])\s*(backquote){3}` at the head of
the input, returning the capture group (the array text including its
brackets), as `re.search(...).group(1)` does. -/
def matchFenceAt (l : Str) : Option Str :=
  match fenceOpen l with
  | none => none
  | some r0 =>
    match r0.dropWhile isReSpace with
    | '[' :: r1 =>
      let sp := r1.takeWhile isReSpace
      (match r1.dropWhile isReSpace with
        | c :: r2 =>
          if c == lbrace then
            (lazyBody r2 []).map (fun body => '[' :: (sp ++ c :: body))
          else none
        | [] => none)
    | _ => none

/-- `re.search` of the fence pattern: try every start position from the
left, first match wins (line 170 of app.py). -/
def searchFence : Str → Option Str
  | [] => none
  | c :: rest =>
    match matchFenceAt (c :: rest) with
    | some g => some g
    | none => searchFence rest

/-- Python's `str.find(ch)`: index of the first occurrence, if any. -/
def pyFind (c : Char) (l : Str) : Option Nat := l.findIdx? (fun x => x == c)

/-- Python's `str.rfind(ch)`: index of the last occurrence, if any. -/
def pyRFind (c : Char) (l : Str) : Option Nat :=
  (l.reverse.findIdx? (fun x => x == c)).map (fun i => l.length - 1 - i)

/-- The extraction failures of spec section 7.  The source signals them
as a raised `ValueError` ("No JSON array found"), a `json.loads`
exception, and the single `else` branch of the 20-item check; the spec's
names label those code paths (the code does not separate `NotAnArray`
from `WrongCount` in its message, but the failing condition is distinct).
There is no `InvalidRecord` constructor because the source has no
per-record validation path. -/
inductive ExtractionError where
  | NoArrayFound : ExtractionError
  | MalformedJson : ExtractionError
  | NotAnArray : ExtractionError
  | WrongCount : Nat → ExtractionError
  deriving DecidableEq, Repr

/-- Candidate location, lines 170-178 of app.py: first the fenced-block
regex; otherwise the slice from the first `[` to the last `]` inclusive
(`content[start:end]`, empty when the last `]` precedes the first `[`);
`ValueError` (NoArrayFound) only when `[` or `]` is absent. -/
def locateCandidate (content : Str) : Except ExtractionError Str :=
  match searchFence content with
  | some g => Except.ok g
  | none =>
    match pyFind '[' content, pyRFind ']' content with
    | some s, some e => Except.ok ((content.drop s).take (e + 1 - s))
    | _, _ => Except.error ExtractionError.NoArrayFound

/-- The repair `re.sub(r",\s*([}\]])", r"\1", json_str)` on line 180:
scan left to right; at a comma followed by `\s*` and a closing brace or
bracket, emit just the closing character and continue after it;
otherwise copy the character.  (As in `re.sub`, this applies anywhere in
the candidate, including inside string literals.) -/
def repairFuel : Nat → Str → Str
  | 0, l => l
  | Nat.succ fuel, l =>
    match l with
    | [] => []
    | c :: rest =>
      if c == ',' then
        match rest.dropWhile isReSpace with
        | c2 :: rest2 =>
          if c2 == rbrace || c2 == ']' then c2 :: repairFuel fuel rest2
          else ',' :: repairFuel fuel rest
        | [] => ',' :: repairFuel fuel rest
      else c :: repairFuel fuel rest

/-- `repair` proper; the fuel (one unit per character emitted) is always
sufficient because every recursive call of `repairFuel` is on a strictly
shorter list. -/
def repair (l : Str) : Str := repairFuel l.length l

/-- Whether the input contains an occurrence of the repair pattern: a
comma followed by `\s*` and a closing brace or bracket. -/
def hasTrailingComma : Str → Bool
  | [] => false
  | c :: rest =>
    if c == ',' then
      match rest.dropWhile isReSpace with
      | c2 :: _ => (c2 == rbrace || c2 == ']') || hasTrailingComma rest
      | [] => hasTrailingComma rest
    else hasTrailingComma rest

/-- The acceptance condition of line 182:
`isinstance(qna, list) and len(qna) == 20`. -/
def isList20 : JsonValue → Bool
  | JsonValue.arr l => l.length == 20
  | _ => false

/-- The whole extraction pipeline of the Generate Questions block
(lines 169-195): locate a candidate, repair it, parse it, accept exactly
a 20-element array, otherwise fail; all failure paths leave the caller
with an error. -/
def extract_qna (content : Str) : Except ExtractionError (List JsonValue) :=
  match locateCandidate content with
  | Except.error e => Except.error e
  | Except.ok json_str =>
    match json_loads (repair json_str) with
    | none => Except.error ExtractionError.MalformedJson
    | some (JsonValue.arr l) =>
      if l.length = 20 then Except.ok l
      else Except.error (ExtractionError.WrongCount l.length)
    | some _ => Except.error ExtractionError.NotAnArray

/-- One collected answer tuple
`(qa['question'], qa['answer'], user_answer)` (lines 226 and 237). -/
structure CollectedAnswer where
  question : Str
  correct_answer : Str
  user_answer : Str
  deriving DecidableEq, Repr

/-- The `st.session_state` keys used by the script.  `none` models an
unset/`None` key; `shuffled_options` is absent (`none`) until the display
block first creates it. -/
structure SessionState where
  qna : Option (List JsonValue)
  start_time : Option Int
  submitted : Bool
  user_answers : List CollectedAnswer
  end_time : Option Int
  shuffled_options : Option (List (Option (List JsonValue)))

/-- The state after the init loop of lines 155-160 on a fresh session
(the loop does not initialise `shuffled_options`). -/
def initialSession : SessionState :=
  { qna := none, start_time := none, submitted := false,
    user_answers := [], end_time := none, shuffled_options := none }

/-- The Generate Questions button handler (lines 163-195) as a state
transition: on successful extraction set `qna`, `start_time`,
`submitted := false` and clear `user_answers` (lines 185-188; the
`save_to_json` side effect is external); on any extraction failure only
an error message is shown and the session state is untouched.  Note the
success path does not clear `end_time` or `shuffled_options`. -/
def generateStep (st : SessionState) (content : Str) (now : Int) : SessionState :=
  match extract_qna content with
  | Except.ok qna =>
    { st with qna := some qna, start_time := some now,
              submitted := false, user_answers := [] }
  | Except.error _ => st

/-- Python truthiness of the `qna` key (`None` and the empty list are
falsy). -/
def truthyQna : Option (List JsonValue) → Bool
  | none => false
  | some l => !l.isEmpty

/-- Python truthiness of a timestamp key (`None` and `0` are falsy). -/
def truthyTime : Option Int → Bool
  | none => false
  | some t => t != 0

/-- Python dict lookup on the members of a parsed JSON object
(`json.loads` builds a dict, so a duplicated key keeps its last value). -/
def lookupKey (ms : List (Str × JsonValue)) (k : Str) : Option JsonValue :=
  (ms.reverse.find? (fun m => m.1 == k)).map (fun m => m.2)

/-- `"options" in qa` followed by `qa["options"]` (lines 211-212): the
options list of a record, when the record is an object with an
`options` key holding an array. -/
def qaOptions : JsonValue → Option (List JsonValue)
  | JsonValue.obj ms =>
    (match lookupKey ms ("options".toList) with
      | some (JsonValue.arr l) => some l
      | _ => none)
  | _ => none

/-- The outcome of one `random.shuffle` call, modelled by the index
arrangement it produced: entry `i` of the result is element `perm[i]`
of the input. -/
def applyPerm (perm : List Nat) (l : List JsonValue) : List JsonValue :=
  perm.filterMap (fun i => l.get? i)

/-- The shuffled-options initialisation of the display block
(lines 207-216): runs only while a non-empty batch is live and
unsubmitted, and only when the `shuffled_options` key is absent; then it
stores one shuffle per question of the *current* `qna` (`perms i` is the
arrangement `random.shuffle` produced for question `i`).  A later batch
does not re-run it, because the key is then present. -/
def shuffleInit (st : SessionState) (perms : Nat → List Nat) : SessionState :=
  if truthyQna st.qna && !st.submitted then
    match st.shuffled_options with
    | some _ => st
    | none =>
      match st.qna with
      | none => st
      | some qs =>
        let shuffles := qs.enum.map (fun p =>
          match qaOptions p.2 with
          | some opts => some (applyPerm (perms p.1) opts)
          | none => none)
        { st with shuffled_options := some shuffles }
  else st

/-- Fill-in-blank answer collection (line 226): the tuple
`(qa['question'], qa['answer'], (ans or "").strip())`. -/
def collect_fill_answer (question answer : Str) (draft : Option Str) : CollectedAnswer :=
  { question := question, correct_answer := answer,
    user_answer := pyStrip (draft.getD []) }

/-- The comparison of the results loop (line 257):
`user_ans == correct_ans`, exact string equality. -/
def isGradedCorrect (a : CollectedAnswer) : Bool :=
  a.user_answer == a.correct_answer

/-- The `correct` counter of lines 255-259. -/
def correct_count (answers : List CollectedAnswer) : Nat :=
  (answers.filter isGradedCorrect).length

/-- The reported total of line 263:
`len(st.session_state.user_answers) or 20` (`0` is falsy). -/
def reported_total (answers : List CollectedAnswer) : Nat :=
  if answers.length = 0 then 20 else answers.length

/-- The three feedback tiers of lines 266-271: `hero` is the
"You're a Math Hero!" message, `good` the "Good job!" message,
`keepPracticing` the "Don't give up!" message. -/
inductive Tier where
  | hero : Tier
  | good : Tier
  | keepPracticing : Tier
  deriving DecidableEq, Repr

/-- The tier chain of lines 266-271:
`if correct >= 16 ... elif correct >= 10 ... else ...`. -/
def tier_of (correct : Nat) : Tier :=
  if correct ≥ 16 then Tier.hero
  else if correct ≥ 10 then Tier.good
  else Tier.keepPracticing

/-- The elapsed value the script reports (lines 201-204 and 250-253):
while a non-empty batch is live and unsubmitted it shows
`int(time.time() - start_time)`; once submitted (with a truthy
`end_time`) it shows `int(end_time - start_time)`.  Timestamps are in
whole seconds, so `int()` is the identity.  `none` covers the states in
which neither block renders a timer (or `start_time` is unset, which
Python could not subtract from). -/
def reported_elapsed (st : SessionState) (now : Int) : Option Int :=
  if truthyQna st.qna && !st.submitted then
    match st.start_time with
    | some s => some (now - s)
    | none => none
  else if st.submitted && truthyTime st.end_time then
    match st.end_time, st.start_time with
    | some e, some s => some (e - s)
    | _, _ => none
  else none

/-- The option label of line 229: `f"{chr(65+j)}. {opt}"`. -/
def labelOption (j : Nat) (opt : Str) : Str :=
  Char.ofNat (65 + j) :: '.' :: ' ' :: opt

/-- The labelled option list of line 229 (`enumerate(options)`). -/
def labeledOptions (opts : List Str) : List Str :=
  opts.enum.map (fun p => labelOption p.1 p.2)

/-- Everything after the first occurrence of ". ", as produced by
`s.split(". ", 1)[1]`; `none` models the `IndexError` raised when ". "
does not occur. -/
def afterFirstDotSpace : Str → Option Str
  | [] => none
  | c :: rest =>
    match rest with
    | [] => none
    | d :: r2 =>
      if c == '.' && d == ' ' then some r2
      else afterFirstDotSpace rest

/-- The MCQ answer recovery of line 236:
`ans.split(". ", 1)[1] if ans else ""` (`none` input is no selection). -/
def mcq_clean : Option Str → Option Str
  | none => some []
  | some s => afterFirstDotSpace s

/-- All elements as strings (used by the spec-side validator below). -/
def asStrList (vs : List JsonValue) : Option (List Str) :=
  vs.foldr (fun v acc =>
    match v, acc with
    | JsonValue.str s, some l => some (s :: l)
    | _, _ => none) (some [])

/-- Modelled from the spec: the per-record multiple-choice validation of
ResponseExtractor step 7 (absent from the source), for comparison with
what `extract_qna` actually accepts — non-empty `question` and `answer`
strings, an `options` field that is an ordered sequence of exactly 5
distinct non-empty strings, and `answer` equal to exactly one of them. -/
def specMcqRecordValid (r : JsonValue) : Bool :=
  match r with
  | JsonValue.obj ms =>
    (match lookupKey ms ("question".toList), lookupKey ms ("answer".toList),
            lookupKey ms ("options".toList) with
      | some (JsonValue.str q), some (JsonValue.str a), some (JsonValue.arr vs) =>
        (match asStrList vs with
          | some opts =>
            decide (q ≠ []) && decide (a ≠ []) && decide (opts.length = 5)
              && opts.all (fun s => decide (s ≠ [])) && decide opts.Nodup
              && decide (a ∈ opts)
          | none => false)
      | _, _, _ => false)
  | _ => false

/-- A JSON string literal. -/
def jstr (s : Str) : Str := '"' :: s ++ ['"']

/-- A JSON array literal from already-serialised element texts. -/
def jsonListOf (xs : List Str) : Str := '[' :: (List.intercalate [','] xs) ++ [']']

/-- The text of one multiple-choice record with the given options and
answer. -/
def recordText (opts : List Str) (ans : Str) : Str :=
  lbrace :: (jstr ("question".toList) ++ ':' :: jstr ("q".toList) ++ ',' ::
    jstr ("options".toList) ++ ':' :: jsonListOf (opts.map jstr) ++ ',' ::
    jstr ("answer".toList) ++ ':' :: jstr ans) ++ [rbrace]

/-- A raw model output consisting of 20 copies of one record. -/
def batchText (r : Str) : Str := jsonListOf (List.replicate 20 r)

/-- The parsed value of `recordText opts ans`. -/
def recordJson (opts : List Str) (ans : Str) : JsonValue :=
  JsonValue.obj [("question".toList, JsonValue.str ("q".toList)),
    ("options".toList, JsonValue.arr (opts.map JsonValue.str)),
    ("answer".toList, JsonValue.str ans)]

/-- Option strings "1"-"5". -/
def optsA : List Str := ["1", "2", "3", "4", "5"].map String.toList

/-- Option strings "6"-"10". -/
def optsB : List Str := ["6", "7", "8", "9", "10"].map String.toList

/-- A 20-record multiple-choice raw text whose records all carry answer
"9", which is not among their options "1"-"5". -/
def rawBadAnswer : Str := batchText (recordText optsA ("9".toList))

/-- A 20-record batch with options "1"-"5" and answer "1". -/
def rawBatchA : Str := batchText (recordText optsA ("1".toList))

/-- A 20-record batch with options "6"-"10" and answer "6". -/
def rawBatchB : Str := batchText (recordText optsB ("6".toList))

/-- The identity arrangement on 5 elements, one possible outcome of
`random.shuffle` on a 5-element list. -/
def idPerm5 : List Nat := [0, 1, 2, 3, 4]

/-!  Helper lemmas. -/

/-- `repairFuel` copies its input verbatim when the repair pattern (a
comma followed by `\s*` and a closing brace or bracket) occurs nowhere
in it. -/
theorem repairFuel_no_pattern : ∀ (fuel : Nat) (l : Str), hasTrailingComma l = false → repairFuel fuel l = l := by
  intro fuel
  induction fuel with
  | zero => intro l _; rfl
  | succ fuel ih =>
    intro l h
    cases l with
    | nil => rfl
    | cons c rest =>
      rw [hasTrailingComma] at h
      rw [repairFuel]
      cases hc : (c == ',') with
      | false =>
        simp only [hc, Bool.false_eq_true, if_false] at h ⊢
        rw [ih rest h]
      | true =>
        have hceq : c = ',' := by
          have := hc
          exact eq_of_beq this
        subst hceq
        simp only [hc, if_true] at h ⊢
        cases hd : rest.dropWhile isReSpace with
        | nil =>
          rw [hd] at h
          show (',' :: repairFuel fuel rest : Str) = ',' :: rest
          rw [ih rest h]
        | cons c2 r2 =>
          rw [hd] at h
          have h' : ((c2 == rbrace || c2 == ']') || hasTrailingComma rest) = false := h
          simp only [Bool.or_eq_false_iff] at h'
          obtain ⟨⟨hb1, hb2⟩, h3⟩ := h'
          show (if (c2 == rbrace || c2 == ']') = true then c2 :: repairFuel fuel r2
                else ',' :: repairFuel fuel rest) = ',' :: rest
          rw [hb1, hb2]
          simp only [Bool.or_false, Bool.false_eq_true, if_false]
          rw [ih rest h3]

theorem repair_no_pattern (l : Str) (h : hasTrailingComma l = false) : repair l = l :=
  repairFuel_no_pattern l.length l h

theorem afterFirstDotSpace_cons (c : Char) (l : Str) :
    afterFirstDotSpace (c :: '.' :: ' ' :: l) = some l := by
  have h1 : (('.' : Char) == ' ') = false := rfl
  rw [afterFirstDotSpace]
  simp only [h1, Bool.and_false, Bool.false_eq_true, if_false]
  rfl

theorem snd_mem_of_mem_enumFrom {α : Type} :
    ∀ (l : List α) (n : Nat) (p : Nat × α), p ∈ List.enumFrom n l → p.2 ∈ l := by
  intro l
  induction l with
  | nil => intro n p h; cases h
  | cons a t ih =>
    intro n p h
    rw [List.enumFrom] at h
    rcases List.mem_cons.mp h with h1 | h2
    · subst h1; exact List.mem_cons_self _ _
    · exact List.mem_cons_of_mem _ (ih _ _ h2)

theorem mem_of_mem_labeled (opts : List Str) (sel : Str) (h : sel ∈ labeledOptions opts) :
    ∃ opt, opt ∈ opts ∧ mcq_clean (some sel) = some opt := by
  rw [labeledOptions] at h
  obtain ⟨p, hp, hf⟩ := List.mem_map.mp h
  have hopt : p.2 ∈ opts := snd_mem_of_mem_enumFrom opts 0 p hp
  refine ⟨p.2, hopt, ?_⟩
  rw [← hf]
  rw [mcq_clean, labelOption]
  exact afterFirstDotSpace_cons _ _

/-!  Claim theorems. -/

set_option maxRecDepth 40000

/-- C1, counterexample: a 20-record multiple-choice raw text whose every
record has `answer` "9" absent from its 5 `options` is accepted whole by
the extraction — the batch is handed over with the invalid records in it,
and no `InvalidRecord` failure occurs, contradicting the claim that such
a record always fails extraction. -/
theorem c1_counterexample :
    extract_qna rawBadAnswer = Except.ok (List.replicate 20 (recordJson optsA ("9".toList)))
    ∧ specMcqRecordValid (recordJson optsA ("9".toList)) = false :=
  ⟨rfl, rfl⟩

/-- C1, amended: the extraction performs no per-record validation at
all — whenever a candidate is located and parses to a JSON array of
exactly 20 elements, the batch is accepted verbatim regardless of the
contents of the records (in particular a multiple-choice record whose
`answer` is not among its `options` is accepted). -/
theorem c1_no_record_validation (raw cand : Str) (l : List JsonValue)
    (h1 : locateCandidate raw = Except.ok cand)
    (h2 : json_loads (repair cand) = some (JsonValue.arr l))
    (h3 : l.length = 20) :
    extract_qna raw = Except.ok l := by
  simp [extract_qna, h1, h2, h3]

/-- Witness for C1: the amended theorem applied to the invalid-answer
batch. -/
theorem c1_no_record_validation_witness :
    extract_qna rawBadAnswer = Except.ok (List.replicate 20 (recordJson optsA ("9".toList))) :=
  c1_no_record_validation rawBadAnswer rawBadAnswer
    (List.replicate 20 (recordJson optsA ("9".toList))) rfl rfl (by simp)

/-- C2, counterexample: on the input "][" neither location branch yields
a non-empty candidate, yet extraction does not fail with `NoArrayFound`:
the fallback produces the empty candidate (first `[` after last `]`),
which is then parsed and fails as `MalformedJson`. -/
theorem c2_counterexample :
    searchFence ("][".toList) = none
    ∧ locateCandidate ("][".toList) = Except.ok []
    ∧ extract_qna ("][".toList) = Except.error ExtractionError.MalformedJson :=
  ⟨rfl, rfl, rfl⟩

/-- C2, amended: candidate location tries the fenced-block regex first
(its match wins), otherwise takes the slice from the first `[` to the
last `]` inclusive whenever both characters occur (even if that slice is
empty), and fails with `NoArrayFound` exactly when there is no fence
match and `[` or `]` is absent from the text. -/
theorem c2_location_order (content : Str) :
    (∀ g, searchFence content = some g → locateCandidate content = Except.ok g)
    ∧ (searchFence content = none →
        ∀ s e, pyFind '[' content = some s → pyRFind ']' content = some e →
          locateCandidate content = Except.ok ((content.drop s).take (e + 1 - s)))
    ∧ (locateCandidate content = Except.error ExtractionError.NoArrayFound ↔
        searchFence content = none ∧ (pyFind '[' content = none ∨ pyRFind ']' content = none)) := by
  refine ⟨?_, ?_, ?_⟩
  · intro g hg; rw [locateCandidate, hg]
  · intro hn s e hs he; rw [locateCandidate, hn, hs, he]
  · rw [locateCandidate]
    cases hf : searchFence content with
    | some g => simp
    | none =>
      cases hs : pyFind '[' content with
      | some s =>
        cases he : pyRFind ']' content with
        | some e => simp
        | none => simp
      | none =>
        cases he : pyRFind ']' content with
        | some e => simp
        | none => simp

/-- Witness for C2: the fallback branch applied to a concrete unfenced
text. -/
theorem c2_location_order_witness :
    locateCandidate ("x[1]y".toList) = Except.ok ("[1]".toList) :=
  (c2_location_order ("x[1]y".toList)).2.1 rfl 1 3 rfl rfl

/-- C3: a located candidate that parses to anything other than a list of
length exactly 20 makes extraction fail (`WrongCount` on a wrong-length
array, `NotAnArray` on a non-array), and on any extraction failure the
Generate step leaves the whole session state — batch, timer, submitted
flag, answers, shuffle — unchanged; no partial batch is ever committed. -/
theorem c3_all_or_nothing (st : SessionState) (raw cand : Str) (v : JsonValue) (now : Int)
    (h1 : locateCandidate raw = Except.ok cand)
    (h2 : json_loads (repair cand) = some v)
    (h3 : isList20 v = false) :
    extract_qna raw =
      Except.error (match v with
        | JsonValue.arr l => ExtractionError.WrongCount l.length
        | _ => ExtractionError.NotAnArray)
    ∧ generateStep st raw now = st
    ∧ ∀ (st2 : SessionState) (raw2 : Str) (now2 : Int) (e : ExtractionError),
        extract_qna raw2 = Except.error e → generateStep st2 raw2 now2 = st2 := by
  have herr : extract_qna raw =
      Except.error (match v with
        | JsonValue.arr l => ExtractionError.WrongCount l.length
        | _ => ExtractionError.NotAnArray) := by
    cases v with
    | arr l =>
      have hb : (l.length == 20) = false := h3
      have hl : ¬ l.length = 20 := by simpa using hb
      simp [extract_qna, h1, h2, hl]
    | null => simp [extract_qna, h1, h2]
    | bool b => simp [extract_qna, h1, h2]
    | num s => simp [extract_qna, h1, h2]
    | str s => simp [extract_qna, h1, h2]
    | obj ms => simp [extract_qna, h1, h2]
  refine ⟨herr, ?_, ?_⟩
  · rw [generateStep, herr]
  · intro st2 raw2 now2 e he
    rw [generateStep, he]

/-- Witness for C3: a 2-element array fails with `WrongCount 2` and the
fresh session is left untouched. -/
theorem c3_all_or_nothing_witness :
    extract_qna ("[1, 2]".toList) = Except.error (ExtractionError.WrongCount 2)
    ∧ generateStep initialSession ("[1, 2]".toList) 0 = initialSession := by
  have h := c3_all_or_nothing initialSession ("[1, 2]".toList) ("[1, 2]".toList)
    (JsonValue.arr [JsonValue.num ("1".toList), JsonValue.num ("2".toList)]) 0 rfl rfl rfl
  exact ⟨h.1, h.2.1⟩

/-- C4, amended: the repair pass rewrites exactly the occurrences of a
comma followed by whitespace and a closing `]`/`}` — wherever the
candidate contains no such occurrence the repair is the identity (so the
parsed result is unchanged), and a structural trailing comma is
tolerated: the repaired candidate parses like its comma-free equivalent
even though the unrepaired one does not parse at all. -/
theorem c4_repair_semantics (cand : Str) (h : hasTrailingComma cand = false) :
    repair cand = cand
    ∧ json_loads (repair cand) = json_loads cand
    ∧ json_loads (repair ("[\"a\",]".toList)) = json_loads ("[\"a\"]".toList)
    ∧ json_loads ("[\"a\",]".toList) = none := by
  have hr := repair_no_pattern cand h
  exact ⟨hr, by rw [hr], rfl, rfl⟩

/-- Witness for C4: a candidate with a comma not followed by a closing
bracket is untouched by the repair. -/
theorem c4_repair_semantics_witness :
    repair ("[1, 2]".toList) = "[1, 2]".toList :=
  (c4_repair_semantics ("[1, 2]".toList) rfl).1

/-- C4, counterexample: the repair is not a no-op on the parsed value of
already-valid JSON — a string field value containing a comma, a space
and a bracket is rewritten inside the string literal, changing the
parsed value. -/
theorem c4_counterexample :
    json_loads ("[\"a, ]\"]".toList) = some (JsonValue.arr [JsonValue.str ("a, ]".toList)])
    ∧ repair ("[\"a, ]\"]".toList) = "[\"a]\"]".toList
    ∧ json_loads (repair ("[\"a, ]\"]".toList)) = some (JsonValue.arr [JsonValue.str ("a]".toList)])
    ∧ ("a, ]".toList : Str) ≠ ("a]".toList : Str) :=
  ⟨rfl, rfl, rfl, by decide⟩

/-- The session after generating batch A and rendering once (which
stores the per-question shuffles of batch A's options). -/
def sessionAfterFirstBatch : SessionState :=
  shuffleInit (generateStep initialSession rawBatchA 100) (fun _ => idPerm5)

/-- The session after then generating batch B and rendering again,
without any reset in between. -/
def sessionAfterSecondBatch : SessionState :=
  shuffleInit (generateStep sessionAfterFirstBatch rawBatchB 200) (fun _ => idPerm5)

/-- C5: generating a second batch in the same session does not produce
fresh permutations — the new batch is committed to `qna`, but
`shuffled_options` still holds the entries built from batch A's options
(`"1"`-`"5"`), while batch B's records carry the different options
`"6"`-`"10"`; the display order for the new batch therefore reuses (even
displays) the previous batch's shuffled options, contradicting the
claimed fresh-shuffle-per-batch behaviour. -/
theorem c5_stale_shuffle :
    (generateStep sessionAfterFirstBatch rawBatchB 200).qna
      = some (List.replicate 20 (recordJson optsB ("6".toList)))
    ∧ sessionAfterSecondBatch.shuffled_options = sessionAfterFirstBatch.shuffled_options
    ∧ sessionAfterFirstBatch.shuffled_options
      = some (List.replicate 20 (some (optsA.map JsonValue.str)))
    ∧ qaOptions (recordJson optsB ("6".toList)) = some (optsB.map JsonValue.str)
    ∧ optsA ≠ optsB :=
  ⟨rfl, rfl, rfl, rfl, by decide⟩

/-- C6: a collected fill-in answer is the whitespace-trimmed draft, and
grading is exact case-sensitive string equality of that trimmed answer
with `correct_answer`: " 15 " is graded correct against "15", "15.0" is
graded incorrect against "15", and in general a collected draft is
correct exactly when its trimmed form equals the stored answer. -/
theorem c6_trim_exact_grading (q : Str) :
    isGradedCorrect (collect_fill_answer q ("15".toList) (some (" 15 ".toList))) = true
    ∧ isGradedCorrect (collect_fill_answer q ("15".toList) (some ("15.0".toList))) = false
    ∧ ∀ (c d : Str), isGradedCorrect (collect_fill_answer q c (some d)) = (pyStrip d == c) :=
  ⟨rfl, rfl, fun _ _ => rfl⟩

/-- Witness for C6 at a concrete question text. -/
theorem c6_trim_exact_grading_witness :
    isGradedCorrect (collect_fill_answer ("Q".toList) ("15".toList) (some (" 15 ".toList))) = true :=
  (c6_trim_exact_grading ("Q".toList)).1

/-- C7: the tier is assigned by the fixed inclusive thresholds — at
least 16 correct gives the Hero tier, 10 to 15 the Good tier, below 10
the keep-practicing tier; in particular 16 maps to Hero, 15 and 10 to
Good, and 9 to keep practicing. -/
theorem c7_tier_thresholds (n : Nat) :
    (16 ≤ n → tier_of n = Tier.hero)
    ∧ (10 ≤ n → n < 16 → tier_of n = Tier.good)
    ∧ (n < 10 → tier_of n = Tier.keepPracticing)
    ∧ tier_of 16 = Tier.hero ∧ tier_of 15 = Tier.good
    ∧ tier_of 10 = Tier.good ∧ tier_of 9 = Tier.keepPracticing := by
  refine ⟨?_, ?_, ?_, rfl, rfl, rfl, rfl⟩
  · intro h; rw [tier_of, if_pos h]
  · intro h1 h2; rw [tier_of, if_neg (by omega), if_pos h1]
  · intro h; rw [tier_of, if_neg (by omega), if_neg (by omega)]

/-- Witness for C7 at one score in each band. -/
theorem c7_tier_thresholds_witness :
    tier_of 18 = Tier.hero ∧ tier_of 12 = Tier.good ∧ tier_of 3 = Tier.keepPracticing :=
  ⟨(c7_tier_thresholds 18).1 (by decide),
   (c7_tier_thresholds 12).2.1 (by decide) (by decide),
   (c7_tier_thresholds 3).2.2.1 (by decide)⟩

/-- A live unsubmitted session whose clock has jumped behind
`start_time`. -/
def anomalySession : SessionState :=
  { qna := some [JsonValue.null], start_time := some 5, submitted := false,
    user_answers := [], end_time := none, shuffled_options := none }

/-- C8, counterexample: when `now < started_at` the displayed elapsed
time is negative — nothing clamps it to zero, contradicting the claimed
never-negative behaviour. -/
theorem c8_counterexample :
    reported_elapsed anomalySession 0 = some (-5) ∧ ((-5 : Int) < 0) :=
  ⟨rfl, by decide⟩

/-- C8, amended: the reported elapsed time equals `now - started_at`
while unsubmitted and `ended_at - started_at` once submitted — in the
latter case it is frozen, independent of any later `now`; no clamping is
performed, so it can be negative on a clock anomaly. -/
theorem c8_elapsed_semantics (st : SessionState) (now now2 s : Int)
    (hs : st.start_time = some s) :
    (st.submitted = false → truthyQna st.qna = true → reported_elapsed st now = some (now - s))
    ∧ (∀ e : Int, st.submitted = true → st.end_time = some e → e ≠ 0 →
        reported_elapsed st now = some (e - s)
        ∧ reported_elapsed st now = reported_elapsed st now2) := by
  constructor
  · intro hsub hq
    rw [reported_elapsed, hq, hsub, hs]
    simp
  · intro e hsub he hne
    have hfrozen : ∀ t : Int, reported_elapsed st t = some (e - s) := by
      intro t
      rw [reported_elapsed, hsub, he, hs]
      have hb : (e == 0) = false := by simpa using hne
      simp [truthyTime, hb, hne]
    exact ⟨hfrozen now, by rw [hfrozen now, hfrozen now2]⟩

/-- A live session for the C8 witness. -/
def liveSession : SessionState :=
  { qna := some [JsonValue.null], start_time := some 10, submitted := false,
    user_answers := [], end_time := none, shuffled_options := none }

/-- A submitted session for the C8 witness. -/
def doneSession : SessionState :=
  { qna := some [JsonValue.null], start_time := some 10, submitted := true,
    user_answers := [], end_time := some 30, shuffled_options := none }

/-- Witness for C8: live elapsed at a concrete clock, and frozenness of
the submitted session's elapsed across two later clocks. -/
theorem c8_elapsed_semantics_witness :
    reported_elapsed liveSession 25 = some (25 - 10 : Int)
    ∧ reported_elapsed doneSession 1000 = reported_elapsed doneSession 2000 :=
  ⟨(c8_elapsed_semantics liveSession 25 25 10 rfl).1 rfl rfl,
   ((c8_elapsed_semantics doneSession 1000 2000 10 rfl).2 30 rfl rfl (by decide)).2⟩

/-- C9, counterexample: with no collected answers the reported total is
20, not the count 0 — `len(...) or 20` replaces a zero count. -/
theorem c9_counterexample :
    reported_total [] = 20
    ∧ List.length ([] : List CollectedAnswer) = 0
    ∧ (20 : Nat) ≠ 0 :=
  ⟨rfl, rfl, by decide⟩

/-- C9, amended: the reported total equals the number of collected
answers whenever at least one was collected, and defaults to 20 on the
empty collection. -/
theorem c9_total_semantics (answers : List CollectedAnswer) (h : answers ≠ []) :
    reported_total answers = answers.length ∧ reported_total [] = 20 := by
  constructor
  · rw [reported_total, if_neg (fun hl => h (List.length_eq_zero.mp hl))]
  · rfl

/-- A single collected answer for the C9 witness. -/
def oneAnswer : CollectedAnswer :=
  { question := "Q".toList, correct_answer := "15".toList, user_answer := "15".toList }

/-- Witness for C9 on a one-element collection. -/
theorem c9_total_semantics_witness :
    reported_total [oneAnswer] = 1 :=
  (c9_total_semantics [oneAnswer] (by simp)).1

/-- C10: labelling an option as letter-dot-space-option and recovering
it by splitting at the first ". " is a round trip for every option
string (even one containing ". "), the collected answer is empty when
nothing is selected, and every selection from the labelled list recovers
verbatim one of the question's options. -/
theorem c10_label_split_roundtrip :
    (∀ (j : Nat) (opt : Str), mcq_clean (some (labelOption j opt)) = some opt)
    ∧ mcq_clean none = some []
    ∧ (∀ (opts : List Str) (sel : Str), sel ∈ labeledOptions opts →
        ∃ opt, opt ∈ opts ∧ mcq_clean (some sel) = some opt) := by
  refine ⟨?_, rfl, ?_⟩
  · intro j opt
    rw [mcq_clean, labelOption]
    exact afterFirstDotSpace_cons _ _
  · intro opts sel h
    exact mem_of_mem_labeled opts sel h

/-- Witness for C10 on an option whose text itself contains ". ". -/
theorem c10_label_split_roundtrip_witness :
    mcq_clean (some (labelOption 1 ("y. z".toList))) = some ("y. z".toList)
    ∧ (∃ opt, opt ∈ [("x".toList : Str), ("y. z".toList : Str)]
        ∧ mcq_clean (some ("B. y. z".toList)) = some opt) :=
  ⟨c10_label_split_roundtrip.1 1 ("y. z".toList),
   c10_label_split_roundtrip.2.2 [("x".toList), ("y. z".toList)] ("B. y. z".toList) (by decide)⟩
